import Mathlib

/-!
Verification of the decision-and-verification engine of the android-automation
repository: the selector resolver (`selector_resolver.py`, `actuator.py`), the
rule-based planner (`planner.py`), the termination evaluators (`run_goal.py`,
`termination.py`) and the verifier (`verifier.py`), shallowly embedded in Lean.

Modelling conventions:
* Python `str` is `String`; the normalizer (`normalizer.py`) always yields plain
  strings (never `None`) for element attributes, so element fields are `String`.
* Python `float` values (difflib ratios, backoff delays, scroll factors) are
  modelled as exact rationals `ℚ`.  The floats occurring here (0.6, 0.1, 0.5,
  1.0, 2.0, 0.7, 0.85, 0.15) and the ratios `2*M/T` for realistic sizes are far
  apart relative to double-precision rounding, so the rational comparisons
  coincide with the float comparisons performed by the source.
* Python `dict` arguments become structures with `Option` fields (a `none`
  field is an absent key); free-form `args` dicts become association lists.
* Fallible paths (uncaught exceptions) are modelled by `Option`.
-/

/-! ### Structurally recursive string primitives

The Lean core implementations of `String.splitOn`, `trim`, `toLower`,
`startsWith` … are byte-position loops that do not reduce inside the kernel,
so the Python string operations used by the sources are (re)defined here by
structural recursion over `String.data`, with the semantics of the
corresponding Python `str` methods (for the ASCII data this repository
handles). -/

/-- Whether `needle` is a prefix of `hay`. -/
def pyIsPrefixList : List Char → List Char → Bool
  | [], _ => true
  | _ :: _, [] => false
  | a :: as, b :: bs => a == b && pyIsPrefixList as bs

/-- Substring containment on character lists. -/
def pySubList : List Char → List Char → Bool
  | hay, needle =>
    match hay with
    | [] => needle.isEmpty
    | _ :: t => pyIsPrefixList needle hay || pySubList t needle

/-- Source `str.split(sep)` for a non-empty separator, with explicit fuel (`fuel ≥
length` always holds at the call site, so the fuel clause is unreachable). -/
def pySplitGo (sep : List Char) : Nat → List Char → List Char → List (List Char)
  | _, acc, [] => [acc.reverse]
  | 0, acc, l => [acc.reverse ++ l]
  | fuel + 1, acc, c :: rest =>
    if pyIsPrefixList sep (c :: rest) then
      acc.reverse :: pySplitGo sep fuel [] (List.drop (sep.length - 1) rest)
    else pySplitGo sep fuel (c :: acc) rest

def String.pySplitOn (s sep : String) : List String :=
  if sep.data.isEmpty then [s]
  else (pySplitGo sep.data s.data.length [] s.data).map (fun l => ⟨l⟩)

/-- Python `str.strip()` (whitespace from both ends). -/
def String.pyStrip (s : String) : String :=
  ⟨((s.data.dropWhile Char.isWhitespace).reverse.dropWhile Char.isWhitespace).reverse⟩

/-- Python `str.lower()` (ASCII, as in the texts this system compares). -/
def String.pyLower (s : String) : String := ⟨s.data.map Char.toLower⟩

def String.pyStartsWith (s p : String) : Bool := pyIsPrefixList p.data s.data

def String.pyEndsWith (s p : String) : Bool := pyIsPrefixList p.data.reverse s.data.reverse

/-- Python `str.replace(old, new)` for non-empty `old`
(= split on `old`, join with `new`). -/
def String.pyReplace (s old new : String) : String :=
  String.intercalate new (s.pySplitOn old)

namespace AndroidAuto

/-! ## Python string primitives -/

/-- Python `needle in hay` (substring containment, `str.__contains__`). -/
def pyContains (hay needle : String) : Bool :=
  pySubList hay.data needle.data

/-- Source `_norm` from `selector_resolver.py`: `(s or "").strip()`. -/
def pyNorm (s : String) : String := s.pyStrip

/-- Python `str(list_of_ints)`, e.g. `str([1, 2, 3, 4]) = "[1, 2, 3, 4]"`. -/
def pyListStr (b : List Int) : String :=
  "[" ++ String.intercalate ", " (b.map toString) ++ "]"

/-- Python `int(s)` for a decimal string: optional sign, at least one digit,
surrounding whitespace ignored.  (Python also accepts underscores and unicode
digits; those do not occur in this repository's inputs.) -/
def pyParseIntOpt (s : String) : Option Int :=
  let t := s.pyStrip.data
  let (neg, digits) :=
    match t with
    | '-' :: rest => (true, rest)
    | '+' :: rest => (false, rest)
    | _ => (false, t)
  if digits.length > 0 && digits.all Char.isDigit then
    let n : Nat := digits.foldl (fun acc c => acc * 10 + (c.toNat - 48)) 0
    some (if neg then -(n : Int) else (n : Int))
  else none

/-- Source `ast.literal_eval(value)` restricted to flat lists of integer literals, as
used for bounds values like `"[1,2,3,4]"` in `actuator.find_by_selector`.
Anything `literal_eval` would reject (or that is not such a list) is `none`,
which the caller treats like the caught exception in the source. -/
def pyParseIntList (v : String) : Option (List Int) :=
  let s := v.pyStrip
  if s.pyStartsWith "[" && s.pyEndsWith "]" && decide (s.data.length ≥ 2) then
    let inner : String := ⟨(s.data.drop 1).dropLast⟩
    if inner.pyStrip == "" then some []
    else
      let parts := (inner.pySplitOn ",").map pyParseIntOpt
      if parts.all Option.isSome then some (parts.map (fun o => o.getD 0))
      else none
  else none

/-- Python `int()` truncation toward zero of a rational (`int(float)`). -/
def ratTrunc (q : ℚ) : Int := if q ≥ 0 then q.floor else q.ceil

/-! ## `difflib.SequenceMatcher(None, a, b).ratio()`

The resolver's fuzzy tier calls CPython's `difflib`.  The model below follows
the stdlib implementation: `__chain_b` (with the autojunk popularity rule for
second sequences of length ≥ 200 and no junk function), `find_longest_match`
(first maximal matching block), and the queue recursion of
`get_matching_blocks`, of which only the total matched length is needed for
`ratio`.  Loops are written with explicit fuel bounds that are never reached
(the queue recursion performs at most `la+lb+1` pops). -/

/-- Source `b2j` of `SequenceMatcher.__chain_b`: positions of `c` in `b`, with
popular elements dropped when `len(b) ≥ 200` (autojunk, no junk function). -/
def b2jOf (b : List Char) (c : Char) : List Nat :=
  let occ := (List.range b.length).filter (fun j => b.getD j '?' == c)
  if decide (b.length ≥ 200) && decide (occ.length > b.length / 100 + 1) then []
  else occ

/-- Lookup in the `j2len` row of `find_longest_match` (`j2len.get(j-1, 0)`). -/
def j2lenGet (m : List (Nat × Nat)) (j : Nat) : Nat := (m.lookup j).getD 0

/-- The dynamic-programming core of `find_longest_match`: iterate `i` over
`[alo, ahi)`, and for each `j` in `b2j[a[i]] ∩ [blo, bhi)` extend the diagonal
run; keep the first longest block (strict `>` comparison as in the source). -/
def flmCore (b2j : Char → List Nat) (a : List Char) (alo ahi blo bhi : Nat) :
    Nat × Nat × Nat :=
  let step := fun (st : List (Nat × Nat) × (Nat × Nat × Nat)) (i : Nat) =>
    let j2len := st.1
    let js := (b2j (a.getD i '*')).filter (fun j => decide (blo ≤ j) && decide (j < bhi))
    js.foldl
      (fun (p : List (Nat × Nat) × (Nat × Nat × Nat)) j =>
        let k := (if j == 0 then 0 else j2lenGet j2len (j - 1)) + 1
        let best := p.2
        let best := if k > best.2.2 then (i + 1 - k, j + 1 - k, k) else best
        ((j, k) :: p.1, best))
      ([], st.2)
  ((List.range' alo (ahi - alo)).foldl step ([], (alo, blo, 0))).2

/-- The lower extension loop of `find_longest_match` (no junk configured, so
the junk variants of the loop never fire).  Fuel is the current `besti`. -/
def extendLower (a b : List Char) (alo blo : Nat) :
    Nat → Nat × Nat × Nat → Nat × Nat × Nat
  | 0, st => st
  | n + 1, (bi, bj, bk) =>
    if decide (alo < bi) && decide (blo < bj)
        && (a.getD (bi - 1) '*' == b.getD (bj - 1) '?') then
      extendLower a b alo blo n (bi - 1, bj - 1, bk + 1)
    else (bi, bj, bk)

/-- The upper extension loop of `find_longest_match`.  Fuel is `ahi`. -/
def extendUpper (a b : List Char) (ahi bhi : Nat) :
    Nat → Nat × Nat × Nat → Nat × Nat × Nat
  | 0, st => st
  | n + 1, (bi, bj, bk) =>
    if decide (bi + bk < ahi) && decide (bj + bk < bhi)
        && (a.getD (bi + bk) '*' == b.getD (bj + bk) '?') then
      extendUpper a b ahi bhi n (bi, bj, bk + 1)
    else (bi, bj, bk)

/-- Source `SequenceMatcher.find_longest_match` on the slice `a[alo:ahi], b[blo:bhi]`. -/
def findLongestMatch (a b : List Char) (alo ahi blo bhi : Nat) : Nat × Nat × Nat :=
  let best := flmCore (b2jOf b) a alo ahi blo bhi
  let best := extendLower a b alo blo best.1 best
  extendUpper a b ahi bhi ahi best

/-- The queue recursion of `get_matching_blocks`, accumulating the total size
of all matching blocks (the only quantity `ratio` needs; the LIFO order of the
source queue does not affect the sum). -/
def matchBlocksGo (a b : List Char) :
    Nat → List (Nat × Nat × Nat × Nat) → Nat → Nat
  | 0, _, acc => acc
  | _ + 1, [], acc => acc
  | fuel + 1, (alo, ahi, blo, bhi) :: queue, acc =>
    let r := findLongestMatch a b alo ahi blo bhi
    let i := r.1
    let j := r.2.1
    let k := r.2.2
    if k == 0 then matchBlocksGo a b fuel queue acc
    else matchBlocksGo a b fuel ((alo, i, blo, j) :: (i + k, ahi, j + k, bhi) :: queue) (acc + k)

/-- Total matched length of `get_matching_blocks`. -/
def totalMatched (a b : List Char) : Nat :=
  matchBlocksGo a b (a.length + b.length + 2) [(0, a.length, 0, b.length)] 0

/-- Source `difflib.SequenceMatcher(None, a, b).ratio() = 2*M/(la+lb)` (1 when both
empty), as an exact rational. -/
def ratioOf (aStr bStr : String) : ℚ :=
  let a := aStr.data
  let b := bStr.data
  if a.length + b.length == 0 then 1
  else (2 * (totalMatched a b : ℚ)) / ((a.length : ℚ) + (b.length : ℚ))

/-! ## Data model (`normalizer.py` output shape)

`normalize` produces element dicts whose attributes are always plain strings
(`attrib.get(...) or ""`), a 4-integer `bounds` list (default `[0,0,0,0]`), a
2-integer `center`, and booleans; plus a `by_id` mapping from `element_id` to
the element.  The dict is modelled as a structure, `by_id` as an association
list. -/

structure Element where
  element_id : String
  resource_id : String
  text : String
  content_desc : String
  /-- the `"class"` attribute (`clazz` in the source's local variables) -/
  clazz : String
  bounds : List Int
  clickable : Bool
  focusable : Bool
  center : List Int
  deriving DecidableEq, Repr

structure Snapshot where
  elements : List Element
  by_id : List (String × Element)
  deriving DecidableEq, Repr

/-- A selection descriptor `{"by": ..., "value": ...}`.  The JSON key `by` is a
Lean keyword, hence the field name `tby`. -/
structure Target where
  tby : String
  value : String
  deriving DecidableEq, Repr

/-- Source `element_center` from `selector_resolver.py` / `centroid_from_element` from
`actuator.py`: `tuple(e.get("center", [0, 0]))`. -/
def centroid_from_element (e : Element) : Int × Int :=
  (e.center.getD 0 0, e.center.getD 1 0)

/-! ## `selector_resolver.resolve_selector` -/

/-- The blob `" ".join([_norm(text), _norm(content_desc)]).strip()` of the
fuzzy tier. -/
def fuzzyBlob (e : Element) : String :=
  (pyNorm e.text ++ " " ++ pyNorm e.content_desc).pyStrip

/-- Source `SequenceMatcher(None, blob.lower(), _norm(val).lower()).ratio()`. -/
def fuzzySim (val : String) (e : Element) : ℚ :=
  ratioOf (fuzzyBlob e).pyLower (pyNorm val).pyLower

/-- Source `contains = _norm(val).lower() in blob.lower()`. -/
def fuzzyHas (val : String) (e : Element) : Bool :=
  pyContains (fuzzyBlob e).pyLower ((pyNorm val).pyLower)

/-- The sort key `ratio + (0.1 if contains else 0.0)`. -/
def fuzzyScore (val : String) (e : Element) : ℚ :=
  fuzzySim val e + (if fuzzyHas val e then (1 : ℚ)/10 else 0)

/-- One candidate of the fuzzy tier: `none` when the element has an empty blob
or fails the `contains or ratio >= 0.6` test, otherwise the pair of its sort
key and the element. -/
def fuzzyCandidate (val : String) (e : Element) : Option (ℚ × Element) :=
  if fuzzyBlob e == "" then none
  else if fuzzyHas val e || decide (fuzzySim val e ≥ 3/5) then
    some (fuzzyScore val e, e)
  else none

/-- The `candidates` list of the fuzzy tier, in snapshot order. -/
def fuzzyCandidates (elems : List Element) (val : String) : List (ℚ × Element) :=
  elems.filterMap (fuzzyCandidate val)

/-- Source `candidates.sort(key=lambda x: x[0], reverse=True); candidates[0]`:
Python's sort is stable, so this composite returns the earliest candidate with
the maximal key, which is what the fold below computes (it replaces the best
only on a strictly greater key). -/
def bestCandidate : List (ℚ × Element) → Option (ℚ × Element)
  | [] => none
  | c :: cs => some (cs.foldl (fun best x => if x.1 > best.1 then x else best) c)

/-- The exact-match predicate of each `by`-discriminated block of
`resolve_selector` (used to state theorems; `resolve_selector` below unfolds to
`find?` with exactly these predicates). -/
def rsExactRid (val : String) (e : Element) : Bool := pyNorm e.resource_id == pyNorm val

def rsExactText (val : String) (e : Element) : Bool := pyNorm e.text == pyNorm val

def rsExactDesc (val : String) (e : Element) : Bool := pyNorm e.content_desc == pyNorm val

def rsExactBounds (val : String) (e : Element) : Bool :=
  pyListStr e.bounds == val
    || (pyListStr e.bounds).pyReplace " " "" == val.pyReplace " " ""

/-- The exact tiers (1)–(5) of `resolve_selector`, as one conditional chain
(the source's consecutive `if by == ...` blocks are mutually exclusive: each
returns its first match and otherwise falls through to the fuzzy tier). -/
def rsExactTier (state_norm : Snapshot) (tby val : String) : Option Element :=
  let elems := state_norm.elements
  if tby == "resource-id" then elems.find? (rsExactRid val)
  else if tby == "text" then elems.find? (rsExactText val)
  else if tby == "content-desc" then elems.find? (rsExactDesc val)
  else if tby == "element_id" then state_norm.by_id.lookup val
  else if tby == "bounds" then elems.find? (rsExactBounds val)
  else none

/-- Source `resolve_selector(state_norm, target)` from `selector_resolver.py`.  The
`if not state_norm or not target` guard of the source tests for empty dicts,
which have no counterpart in the typed model.  The exact tiers run first; when
none of them matches, the fuzzy tier runs (note: unconditionally, for every
discriminant, although the source comment says "if target is by
text/content-desc"). -/
def resolve_selector (state_norm : Snapshot) (target : Target)
    (_fallback_policy : String := "default") : Option Element :=
  let elems := state_norm.elements
  let val := target.value
  let exact : Option Element := rsExactTier state_norm target.tby val
  match exact with
  | some e => some e
  | none =>
    match bestCandidate (fuzzyCandidates elems val) with
    | some c => some c.2
    | none => none

/-! ## `actuator.find_by_selector` and the tap-target resolution -/

/-- Source `e.get("bounds") or [0,0,0,0]` (an empty list is falsy). -/
def boundsOr (e : Element) : List Int :=
  if e.bounds.isEmpty then [0, 0, 0, 0] else e.bounds

/-- The predicate of the `clickable_wrapper` inner function: clickable, and
bounds fully containing `inner`. -/
def wrapPred (inner : List Int) (e : Element) : Bool :=
  e.clickable &&
    (let b := boundsOr e
     decide (b.getD 0 0 ≤ inner.getD 0 0) && decide (b.getD 1 0 ≤ inner.getD 1 0)
       && decide (b.getD 2 0 ≥ inner.getD 2 0) && decide (b.getD 3 0 ≥ inner.getD 3 0))

/-- Source `clickable_wrapper(inner_bounds)` from `actuator.find_by_selector`: the
first clickable element whose bounds fully contain `inner_bounds`. -/
def clickable_wrapper (elems : List Element) (inner : List Int) : Option Element :=
  elems.find? (wrapPred inner)

/-- Exact-match predicates of `find_by_selector` (raw equality for
resource-id/content-desc, trimmed for text; `val` for text is already the
trimmed value). -/
def fbsRid (value : String) (e : Element) : Bool := e.resource_id == value

def fbsTextEq (val : String) (e : Element) : Bool := e.text.pyStrip == val

def fbsTextSub (low : String) (e : Element) : Bool := pyContains e.text.pyStrip.pyLower low

def fbsDescEq (value : String) (e : Element) : Bool := e.content_desc == value

/-- Source `find_by_selector(state_norm, by, value)` from `actuator.py`.  The
`element_id` branch returns unconditionally (even `None`); every other branch
falls through to the trailing `resolve_selector` fallback when it finds
nothing. -/
def find_by_selector (state_norm : Snapshot) (tby value : String) : Option Element :=
  let elems := state_norm.elements
  if tby == "element_id" then state_norm.by_id.lookup value
  else
    let direct : Option Element :=
      if tby == "resource-id" then
        match elems.find? (fun e => fbsRid value e && e.clickable) with
        | some e => some e
        | none => elems.find? (fbsRid value)
      else if tby == "text" then
        let val := value.pyStrip
        match elems.find? (fun e => fbsTextEq val e && e.clickable) with
        | some e => some e
        | none =>
          match elems.find? (fbsTextEq val) with
          | some e => some ((clickable_wrapper elems (boundsOr e)).getD e)
          | none =>
            if val != "" then
              let low := val.pyLower
              match elems.find? (fun e => e.clickable && fbsTextSub low e) with
              | some e => some e
              | none =>
                match elems.find? (fbsTextSub low) with
                | some e => some ((clickable_wrapper elems (boundsOr e)).getD e)
                | none => none
            else none
      else if tby == "content-desc" then
        match elems.find? (fun e => fbsDescEq value e && e.clickable) with
        | some e => some e
        | none =>
          match elems.find? (fbsDescEq value) with
          | some e => some ((clickable_wrapper elems (boundsOr e)).getD e)
          | none => none
      else if tby == "bounds" then
        match pyParseIntList value with
        | some b => elems.find? (fun e => e.bounds == b)
        | none => none
      else none
    match direct with
    | some e => some e
    | none => resolve_selector state_norm ⟨tby, value⟩

/-- The `"x,y"` literal-coordinate parse of `_resolve_tap_target`:
`coords.split(",", 1)` then `int` on both halves; an exception yields `none`
(the source catches it and falls through to `(0, 0)`). -/
def coordOf (v : String) : Option (Int × Int) :=
  if pyContains v "," then
    let parts := v.pySplitOn ","
    let px := parts.headD ""
    let py := String.intercalate "," parts.tail
    match pyParseIntOpt px, pyParseIntOpt py with
    | some a, some b => some (a, b)
    | _, _ => none
  else none

/-- Source `_resolve_tap_target(target, state_norm)` from `actuator.py`. -/
def _resolve_tap_target (target : Option Target) (state_norm : Snapshot) : Int × Int :=
  match target with
  | some t =>
    match find_by_selector state_norm t.tby t.value with
    | some e => centroid_from_element e
    | none =>
      match coordOf t.value with
      | some p => p
      | none => (0, 0)
  | none => (0, 0)

/-! ## Actions, argument maps and observations -/

/-- A JSON-ish scalar as found in action `args` and configs.  `vnone` is
Python `None`; floats are exact rationals. -/
inductive PyVal where
  | vstr (s : String)
  | vint (n : Int)
  | vrat (q : ℚ)
  | vbool (b : Bool)
  | vnone
  deriving DecidableEq, Repr

abbrev ArgsMap := List (String × PyVal)

/-- Python `dict[k] = v` (overwrite in place or append). -/
def dictSet (m : ArgsMap) (k : String) (v : PyVal) : ArgsMap :=
  if (m.lookup k).isSome then m.map (fun p => if p.1 == k then (k, v) else p)
  else m ++ [(k, v)]

/-- Source `(d.get(k) or "")` for string-valued entries.  A present non-string,
non-`None` value would raise on the subsequent `.strip()` in Python; such
values do not occur in this repository's configs and are collapsed to `""`. -/
def pyStrOf : Option PyVal → String
  | some (.vstr s) => s
  | _ => ""

/-- Source `int(d.get(k, default))`: ints pass through, floats truncate toward zero,
bools become 0/1, parseable strings parse.  `int` of anything else raises in
Python, which does not occur here; it is modelled by the default. -/
def pyIntD (v : Option PyVal) (d : Int) : Int :=
  match v with
  | some (.vint n) => n
  | some (.vrat q) => ratTrunc q
  | some (.vbool b) => if b then 1 else 0
  | some (.vstr s) => (pyParseIntOpt s).getD d
  | some .vnone => d
  | none => d

/-- Source `float(d.get(k, default))` under the same conventions. -/
def pyRatD (v : Option PyVal) (d : ℚ) : ℚ :=
  match v with
  | some (.vint n) => (n : ℚ)
  | some (.vrat q) => q
  | some (.vbool b) => if b then 1 else 0
  | _ => d

/-- An action value as exchanged between planner and executor:
`{"action": ..., "target": ..., "args": ...}`.  A missing/`None` `action` key
is `none`; a falsy (absent or empty) target dict is `none`; an empty `args`
dict is `[]`. -/
structure Action where
  action : Option String
  target : Option Target
  args : ArgsMap
  deriving DecidableEq, Repr

/-- An observation summary.  The only field the core reads is
`package_activity`; `obs.get("package_activity") or ""` collapses a missing or
`None` value to `""`, and every use either applies that collapse or treats
`""` and `None` alike (falsy), so the field is a plain `String`. -/
structure Obs where
  package_activity : String
  deriving DecidableEq, Repr

/-! ## `actuator.exec_action` -/

/-- Responses of the device-control collaborator (`adb_wrapper`): each
primitive returns `(success, diagnostic)`. -/
structure Device where
  am_start : String → Bool × String
  key_back : Bool × String
  input_keyevent : String → Bool × String
  input_tap : Int → Int → Bool × String
  input_text : String → Bool × String
  input_swipe : Int → Int → Int → Int → Int → Bool × String

/-- The device-facing effects `exec_action` can issue, in order. -/
inductive DevCall where
  | amStartC (comp : String)
  | keyBackC
  | keyeventC (key : String)
  | sleepC (ms : Int)
  | tapC (x y : Int)
  | textC (t : String)
  | swipeC (x1 y1 x2 y2 dur : Int)
  deriving DecidableEq, Repr

/-- The `{"success", "adb_cmds", "note"}` result dict of `exec_action`; the
tap branch may add a `resolved` entry (modelled as the element whose metadata
the source copies). -/
structure ExecResult where
  success : Bool
  adb_cmds : List String
  note : String
  resolved : Option Element := none
  deriving DecidableEq, Repr

/-- Source `_screen_center(state_norm)`: approximate from max bounds;
`//` is Python floor division. -/
def _screen_center (state_norm : Snapshot) : Int × Int :=
  let max_r := state_norm.elements.foldl (fun m e => max m ((boundsOr e).getD 2 0)) 0
  let max_b := state_norm.elements.foldl (fun m e => max m ((boundsOr e).getD 3 0)) 0
  (max_r.fdiv 2, max_b.fdiv 2)

/-- Source `exec_action(action, state_norm)` from `actuator.py`, parameterised by the
device responses; also returns the list of device calls issued.  Float
products (`max_b * 0.85` etc.) are computed exactly rather than in binary
floating point. -/
def exec_action (dev : Device) (action : Action) (state_norm : Snapshot) :
    ExecResult × List DevCall :=
  let act := action.action
  let target := action.target
  let args := action.args
  if act == some "open_app" then
    let comp := match target with | some t => t.value | none => ""
    if comp == "" then
      ({success := false, adb_cmds := [], note := "open_app missing target.value (component)"}, [])
    else
      let r := dev.am_start comp
      ({success := r.1, adb_cmds := ["am start -n " ++ comp], note := r.2}, [.amStartC comp])
  else if act == some "back" then
    let r := dev.key_back
    ({success := r.1, adb_cmds := ["input keyevent KEYCODE_BACK"], note := r.2}, [.keyBackC])
  else if act == some "keyevent" then
    let key := (pyStrOf (args.lookup "key")).pyStrip
    if key == "" then
      ({success := false, adb_cmds := [], note := "keyevent requires args.key"}, [])
    else
      let r := dev.input_keyevent key
      ({success := r.1, adb_cmds := ["input keyevent " ++ key], note := r.2}, [.keyeventC key])
  else if act == some "wait" then
    let dur_ms := pyIntD (args.lookup "duration_ms") 500
    ({success := true, adb_cmds := ["(sleep)"], note := "waited " ++ toString dur_ms ++ "ms"},
      [.sleepC dur_ms])
  else if act == some "tap" then
    let xy := _resolve_tap_target target state_norm
    if target.isSome && xy == ((0 : Int), (0 : Int)) then
      ({success := false, adb_cmds := [],
        note := "tap target not found: by=" ++ (match target with | some t => t.tby | none => "")
          ++ " value=" ++ (match target with | some t => t.value | none => "")}, [])
    else
      let resolved := match target with
        | some t => find_by_selector state_norm t.tby t.value
        | none => none
      let r := dev.input_tap xy.1 xy.2
      ({success := r.1, adb_cmds := ["input tap " ++ toString xy.1 ++ " " ++ toString xy.2],
        note := r.2, resolved := resolved}, [.tapC xy.1 xy.2])
  else if act == some "type" then
    let xy := _resolve_tap_target target state_norm
    let text := pyStrOf (args.lookup "text")
    let textCmd := "input text <" ++ toString text.length ++ " chars>"
    if xy != ((0 : Int), (0 : Int)) then
      let tapCmd := "input tap " ++ toString xy.1 ++ " " ++ toString xy.2
      let rt := dev.input_tap xy.1 xy.2
      if rt.1 == false then
        ({success := false, adb_cmds := [tapCmd], note := "tap-before-type failed: " ++ rt.2},
          [.tapC xy.1 xy.2])
      else
        let r := dev.input_text text
        ({success := r.1, adb_cmds := [tapCmd, textCmd], note := r.2},
          [.tapC xy.1 xy.2, .textC text])
    else
      let r := dev.input_text text
      ({success := r.1, adb_cmds := [textCmd], note := r.2}, [.textC text])
  else if act == some "swipe" then
    let x1 := pyIntD (args.lookup "x1") 0
    let y1 := pyIntD (args.lookup "y1") 0
    let x2 := pyIntD (args.lookup "x2") 0
    let y2 := pyIntD (args.lookup "y2") 0
    let dur := pyIntD (args.lookup "duration_ms") 300
    let r := dev.input_swipe x1 y1 x2 y2 dur
    ({success := r.1,
      adb_cmds := ["input swipe " ++ toString x1 ++ " " ++ toString y1 ++ " " ++ toString x2
        ++ " " ++ toString y2 ++ " " ++ toString dur], note := r.2},
      [.swipeC x1 y1 x2 y2 dur])
  else if act == some "scroll" then
    let c := _screen_center state_norm
    let cx := c.1
    let cy := c.2
    let max_r := state_norm.elements.foldl (fun m e => max m ((boundsOr e).getD 2 0)) 0
    let max_b := state_norm.elements.foldl (fun m e => max m ((boundsOr e).getD 3 0)) 0
    let start_pos := (let s := pyStrOf (args.lookup "start_pos")
                      if s == "" then "center" else s).pyLower
    let xy :=
      if start_pos == "bottom" then (cx, ratTrunc ((max_b : ℚ) * (85/100)))
      else if start_pos == "top" then (cx, ratTrunc ((max_b : ℚ) * (15/100)))
      else if start_pos == "left" then (ratTrunc ((max_r : ℚ) * (15/100)), cy)
      else if start_pos == "right" then (ratTrunc ((max_r : ℚ) * (85/100)), cy)
      else (cx, cy)
    let length := match args.lookup "length" with
      | some v =>
        if v == .vnone then
          let factor := pyRatD (args.lookup "length_factor") (7/10)
          max 200 (ratTrunc (factor * ((max cy cx : Int) : ℚ)))
        else pyIntD (some v) 0
      | none =>
        let factor := pyRatD (args.lookup "length_factor") (7/10)
        max 200 (ratTrunc (factor * ((max cy cx : Int) : ℚ)))
    let dur := pyIntD (args.lookup "duration_ms") 500
    let direction := (let s := pyStrOf (args.lookup "direction")
                      if s == "" then "down" else s).pyLower
    let d : Int × Int :=
      if direction == "down" then (0, -length)
      else if direction == "up" then (0, length)
      else if direction == "left" then (-length, 0)
      else if direction == "right" then (length, 0)
      else (0, 0)
    let x1 := xy.1
    let y1 := xy.2
    let x2 := xy.1 + d.1
    let y2 := xy.2 + d.2
    let r := dev.input_swipe x1 y1 x2 y2 dur
    ({success := r.1,
      adb_cmds := ["input swipe " ++ toString x1 ++ " " ++ toString y1 ++ " " ++ toString x2
        ++ " " ++ toString y2 ++ " " ++ toString dur], note := r.2},
      [.swipeC x1 y1 x2 y2 dur])
  else
    ({success := false, adb_cmds := [],
      note := "unknown action " ++ (match act with | some s => s | none => "None")}, [])

/-! ## `run_goal.goal_satisfied` -/

/-- A JSON value that is either a string or a list of strings
(`not_package_in` accepts both). -/
inductive StrOrList where
  | str (s : String)
  | list (l : List String)
  deriving DecidableEq, Repr

/-- The `cfg["termination"]` dict as read by `run_goal.goal_satisfied`.  A
`none` field is an absent key.  `extra` records the names of any further keys
(`goal_satisfied` ignores their values but they make the dict non-empty, which
matters for the `if not termination` test). -/
structure TermConf where
  must_contain_text : Option String := none
  activity : Option String := none
  package : Option String := none
  not_package_in : Option StrOrList := none
  extra : List String := []
  deriving DecidableEq, Repr

/-- Python `not termination`: the dict has no keys at all. -/
def TermConf.isEmptyDict (t : TermConf) : Bool :=
  t.must_contain_text.isNone && t.activity.isNone && t.package.isNone
    && t.not_package_in.isNone && t.extra.isEmpty

/-- Source `goal_satisfied(obs, state_norm, termination)` from `run_goal.py`: the
deterministic termination evaluator used by the run loop ("source of truth").
Note the `must_contain_text` clause scans the `text` of all elements with no
class filtering. -/
def goal_satisfied (obs : Obs) (state_norm : Snapshot) (termination : TermConf) : Bool :=
  if termination.isEmptyDict then false
  else
    let ok := true
    let ok := match termination.must_contain_text with
      | some s =>
        let needle := s.pyStrip.pyLower
        ok && state_norm.elements.any (fun e => pyContains e.text.pyStrip.pyLower needle)
      | none => ok
    let act := obs.package_activity
    let ok := match termination.activity with
      | some s => ok && pyContains act s
      | none => ok
    let ok := match termination.package with
      | some s => ok && pyContains act s
      | none => ok
    let ok := match termination.not_package_in with
      | some v =>
        let bad := match v with
          | .str s => [s]
          | .list l => l
        ok && bad.all (fun p => p == "" || !pyContains act p)
      | none => ok
    ok

/-! ## `termination.evaluate_termination` -/

/-- The spec dict accepted by `termination.evaluate_termination`. -/
structure TerminationConf where
  package : Option String := none
  activity : Option String := none
  must_contain_text : Option String := none
  any_of_texts : Option (List String) := none
  all_of_texts : Option (List String) := none
  deriving DecidableEq, Repr

/-- Source `_ci_contains(hay, needle)`: `bool(hay) and needle.lower() in hay.lower()`. -/
def _ci_contains (hay needle : String) : Bool :=
  hay != "" && pyContains hay.pyLower needle.pyLower

/-- Source `_any_text_present(state_norm, texts)`. -/
def _any_text_present (state_norm : Snapshot) (texts : List String) : Bool :=
  state_norm.elements.any (fun e =>
    texts.any (fun t => _ci_contains e.text t || _ci_contains e.content_desc t))

/-- Source `_one_text_present(state_norm, t)`. -/
def _one_text_present (state_norm : Snapshot) (t : String) : Bool :=
  _any_text_present state_norm [t]

/-- The result dict of `evaluate_termination`.  The `reasons` f-strings are
modelled as (label, outcome) pairs rather than flattened text. -/
structure TermReport where
  ok : Bool
  detail : List (String × Bool)
  package_activity : String
  deriving DecidableEq, Repr

/-- Source `evaluate_termination(state_norm, obs_meta, termination_conf)` from
`termination.py`.  Note: unlike `goal_satisfied`, there is no emptiness guard —
`ok` starts `True` and only configured keys are ANDed in. -/
def evaluate_termination (state_norm : Snapshot) (obs_meta : Obs)
    (termination_conf : TerminationConf) : TermReport :=
  let pkg_act := obs_meta.package_activity
  let ok := true
  let reasons : List (String × Bool) := []
  let s1 := match termination_conf.package with
    | some exp =>
      let cond := pyContains pkg_act.pyLower exp.pyLower
      (ok && cond, reasons ++ [("package~=" ++ exp, cond)])
    | none => (ok, reasons)
  let s2 := match termination_conf.activity with
    | some exp =>
      let cond := pyContains pkg_act.pyLower exp.pyLower
      (s1.1 && cond, s1.2 ++ [("activity~=" ++ exp, cond)])
    | none => s1
  let s3 := match termination_conf.must_contain_text with
    | some exp =>
      let cond := _one_text_present state_norm exp
      (s2.1 && cond, s2.2 ++ [("must_contain_text " ++ exp, cond)])
    | none => s2
  let s4 := match termination_conf.any_of_texts with
    | some arr =>
      let cond := _any_text_present state_norm arr
      (s3.1 && cond, s3.2 ++ [("any_of_texts", cond)])
    | none => s3
  let s5 := match termination_conf.all_of_texts with
    | some arr =>
      let cond := arr.all (_one_text_present state_norm)
      (s4.1 && cond, s4.2 ++ [("all_of_texts", cond)])
    | none => s4
  {ok := s5.1, detail := s5.2, package_activity := pkg_act}

/-! ## `verifier.py` -/

/-- Source `fuzzy_text_present(state_norm, needle)`: elements whose class marks them
as an editable text input (`"edittext" in class.lower()`) are skipped. -/
def fuzzy_text_present (state_norm : Snapshot) (needle : String) : Bool :=
  state_norm.elements.any (fun e =>
    !(pyContains e.clazz.pyLower "edittext")
      && pyContains e.text.pyStrip.pyLower needle.pyStrip.pyLower)

/-- The `expect` dict of `verify_and_retry`. -/
structure Expectation where
  must_contain_text : Option String := none
  activity : Option String := none
  must_equal_text : Option String := none
  deriving DecidableEq, Repr

/-- One attempt's evaluation of a (non-`None`) expectation, lines 32–50 of
`verifier.py`.  The `expect.get(...)` truthiness tests skip absent *and*
empty-string entries. -/
def checkExpectation (expect : Expectation) (obs : Obs) (state_norm : Snapshot) : Bool :=
  let ok_text := true
  let ok_act := true
  let ok_text := match expect.must_contain_text with
    | some s => if s == "" then ok_text else fuzzy_text_present state_norm s
    | none => ok_text
  let ok_act := match expect.activity with
    | some s =>
      if s == "" then ok_act
      else if obs.package_activity == "" then false
      else pyContains obs.package_activity s
    | none => ok_act
  let ok_text := match expect.must_equal_text with
    | some s =>
      if s == "" then ok_text
      else ok_text && state_norm.elements.any (fun e => e.text.pyStrip == s.pyStrip)
    | none => ok_text
  ok_text && ok_act

/-- The outward effects of one `verify_and_retry` call, in order:
a fresh observation, a backoff sleep (seconds), or — hypothetically — a
re-execution of the action.  The source never emits `execStep`: it only ever
re-observes. -/
inductive VerStep where
  | obsStep
  | sleepStep (secs : ℚ)
  | execStep
  deriving DecidableEq, Repr

/-- The result dict of `verify_and_retry` plus the effect trace. -/
structure VerifyReport where
  ok : Bool
  attempts : Nat
  last_state : Option (Obs × Snapshot)
  trace : List VerStep

/-- Source `backoffs = [0.5, 1.0, 2.0]`. -/
def backoffs : List ℚ := [1/2, 1, 2]

/-- The `while attempt < max_retries` loop of `verify_and_retry`, with
`remaining = max_retries - attempt` as structural fuel.  Each iteration
re-observes (`stream` yields the successive fresh observation+snapshot pairs),
returns immediately when `expect` is `None` or satisfied, and otherwise sleeps
`backoffs[min(attempt-1, 2)]` when further attempts remain. -/
def verifyGo (stream : Nat → Obs × Snapshot) (expect : Option Expectation)
    (max_retries : Nat) :
    Nat → Nat → List VerStep → Option (Obs × Snapshot) → VerifyReport
  | 0, attempt, tr, last => ⟨false, attempt, last, tr⟩
  | r + 1, attempt, tr, _last =>
    let attempt := attempt + 1
    let os := stream (attempt - 1)
    let tr := tr ++ [.obsStep]
    let last := some os
    match expect with
    | none => ⟨true, attempt, last, tr⟩
    | some ex =>
      if checkExpectation ex os.1 os.2 then ⟨true, attempt, last, tr⟩
      else
        let tr := if attempt < max_retries then
            tr ++ [.sleepStep (backoffs.getD (min (attempt - 1) (backoffs.length - 1)) 0)]
          else tr
        verifyGo stream expect max_retries r attempt tr last

/-- The effect trace of `r` consecutive failing attempts starting at attempt
counter `attempt` under retry budget `mr`: each attempt re-observes, and all
but the final one sleep `backoffs[min(attempt, 2)]`. -/
def failTrace (mr : Nat) : Nat → Nat → List VerStep
  | _, 0 => []
  | attempt, r + 1 =>
    [.obsStep]
      ++ (if attempt + 1 < mr then
            [.sleepStep (backoffs.getD (min attempt (backoffs.length - 1)) 0)]
          else [])
      ++ failTrace mr (attempt + 1) r

/-- Source `verify_and_retry(action, expect, max_retries)` from `verifier.py`.  The
`action` argument is accepted and, as in the source, never used (the verifier
never re-executes it). -/
def verify_and_retry (stream : Nat → Obs × Snapshot) (_action : Action)
    (expect : Option Expectation) (max_retries : Nat := 3) : VerifyReport :=
  verifyGo stream expect max_retries max_retries 0 [] none

/-! ## `planner.py` — the rule-based planner -/

/-- The `target_from_regex_group` sub-dict of a hint.  `tfr_by` is the JSON
key `by` (a Lean keyword); `preVal`/`sufVal` are the keys used to decorate the
captured group. -/
structure TFRG where
  tfr_by : Option String := none
  group : Option Int := none
  preVal : Option String := none
  sufVal : Option String := none

/-- One entry of `cfg["plan_hints"]`. -/
structure Hint where
  when_goal_contains_any : Option (List String) := none
  when_goal_regex : Option String := none
  action : Option String := none
  target : Option Target := none
  prefer : Option (List Target) := none
  target_prefer : Option (List Target) := none
  args_from_regex_group : Option (List (String × Int)) := none
  args : Option ArgsMap := none
  target_from_regex_group : Option TFRG := none

/-- The target config consumed by the planner. -/
structure Config where
  app_component : Option String := none
  package : Option String := none
  allowed_packages : List String := []
  plan_hints : List Hint := []
  fallback_scroll_if_not_found : Option Bool := none
  fallback_scroll_args : Option ArgsMap := none

/-- One history record; the planner reads only `h.get("plan")`
(`none` models a missing or `None` plan). -/
structure HistEntry where
  plan : Option Action := none

/-- Source `re.search(pattern, goal, IGNORECASE)` is delegated to Python's `re`
library, outside this model's scope; a planner run is parameterised by the
(deterministic) search function.  A match is represented by its group lookup:
`none` for an unmatched group. -/
abbrev ReSearch := String → String → Option (Int → Option String)

def ACTION_ENUM : List String :=
  ["tap", "type", "swipe", "back", "scroll", "open_app", "wait", "keyevent"]

def BY_ENUM : List String :=
  ["resource-id", "text", "content-desc", "bounds", "element_id", "component"]

/-- Draft-7 validation of `ACTION_SCHEMA`: `action` is a required enum
member; a `target`, when present, carries `by` from the enum and a string
value (guaranteed by typing); extra properties are allowed. -/
def validAction (a : Action) : Bool :=
  (match a.action with | some s => ACTION_ENUM.contains s | none => false)
    && (match a.target with | some t => BY_ENUM.contains t.tby | none => true)

/-- Source `_validate_action`: `none` models the raised `ValueError`. -/
def _validate_action (a : Action) : Option Action :=
  if validAction a then some a else none

/-- Source `_goal_contains_any(goal, words)`. -/
def _goal_contains_any (goal : String) (words : List String) : Bool :=
  words.any (fun w => pyContains goal.pyLower w.pyLower)

/-- Source `_find_first_present(state_norm, candidates)`: the first selector of the
preference list that resolves against the live snapshot. -/
def _find_first_present (state_norm : Snapshot) (candidates : List Target) : Option Target :=
  candidates.find? (fun sel => (find_by_selector state_norm sel.tby sel.value).isSome)

/-- Source `[p for p in [cfg.get("package")] if p] + list(cfg.get("allowed_packages", []))`. -/
def pkgCandidates (cfg : Config) : List String :=
  (match cfg.package with | some p => if p == "" then [] else [p] | none => [])
    ++ cfg.allowed_packages

/-- The `open_app` action emitted by the app-presence guard. -/
def openAppAction (comp : String) : Action :=
  ⟨some "open_app", some ⟨"component", comp⟩, []⟩

/-- Source `_need_open_app(obs, cfg)` from `planner.py`: the app-presence guard. -/
def _need_open_app (obs : Obs) (cfg : Config) : Option Action :=
  let act := obs.package_activity
  let allowed := pkgCandidates cfg
  if allowed.any (fun p => p != "" && pyContains act p) then none
  else if (match cfg.app_component with
      | some c => c != "" && !pyContains act ((c.pySplitOn "/").headD "")
      | none => false) then
    some (openAppAction (cfg.app_component.getD ""))
  else if (match cfg.package with
      | some p => p != "" && !pyContains act p
      | none => false) then
    match cfg.app_component with
    | some c => if c != "" then some (openAppAction c) else none
    | none => none
  else none

/-- Source `list(history)[-3:]` (the reversal `[::-1]` of the source does not affect
the existential scan below). -/
def lastN {α : Type} (l : List α) (n : Nat) : List α := l.drop (l.length - n)

/-- Source `(h.get("plan") or {}).get("action")`. -/
def histPlanAction (h : HistEntry) : Option String :=
  match h.plan with | some p => p.action | none => none

/-- Source `(((h.get("plan") or {}).get("args") or {}).get("text") or "").strip().lower()`. -/
def histPlanText (h : HistEntry) : String :=
  match h.plan with
  | some p => (pyStrOf (p.args.lookup "text")).pyStrip.pyLower
  | none => ""

/-- The `typed_same_recently` anti-repeat scan of `plan_next_action`
(lines 181–192): some `type` plan in the last 3 history entries whose
normalized text equals the hint's text argument — or the hint's text argument
is empty. -/
def typed_same_recently (history : List HistEntry) (args : ArgsMap) : Bool :=
  let text_arg := (pyStrOf (args.lookup "text")).pyStrip.pyLower
  (lastN history 3).any (fun h =>
    histPlanAction h == some "type" && (text_arg == "" || text_arg == histPlanText h))

/-- The search-field detection of the `tap`+"search" guard (lines 195–210). -/
def hasSearchField (state_norm : Snapshot) (obs : Obs) : Bool :=
  state_norm.elements.any (fun e =>
    pyContains e.clazz.pyLower "edittext"
      || pyContains e.resource_id.pyLower "search_src_text"
      || pyContains e.resource_id.pyLower "search_edit_text")
    || (let cur := obs.package_activity.pyLower
        pyContains cur "searchactivity" || pyContains cur ".search")

/-- Argument synthesis for a hint: capture groups first
(`args_from_regex_group`), then the hint's static `args` merged on top,
skipping `None` values. -/
def hintArgs (goal : String) (re_search : ReSearch) (hint : Hint) : ArgsMap :=
  let args : ArgsMap := match hint.args_from_regex_group, hint.when_goal_regex with
    | some m, some pat =>
      match re_search pat goal with
      | some mt => m.foldl (fun acc kv =>
          dictSet acc kv.1 (match mt kv.2 with | some s => .vstr s | none => .vnone)) []
      | none => []
    | _, _ => []
  match hint.args with
  | some st => st.foldl (fun acc kv => if kv.2 == .vnone then acc else dictSet acc kv.1 kv.2) args
  | none => args

/-- Target resolution for a hint: a static target wins; otherwise the first
present selector of `prefer`/`target_prefer` (the source's `or`-chain treats
an empty list as absent); otherwise a target built from a regex capture group. -/
def hintTarget (goal : String) (state_norm : Snapshot) (re_search : ReSearch)
    (hint : Hint) : Option Target :=
  let target : Option Target := match hint.target with
    | some t => some t
    | none =>
      let prefer := match hint.prefer with
        | some l => if l.isEmpty then hint.target_prefer.getD [] else l
        | none => hint.target_prefer.getD []
      if prefer.isEmpty then none else _find_first_present state_norm prefer
  match target with
  | some t => some t
  | none =>
    match hint.target_from_regex_group, hint.when_goal_regex with
    | some dyn, some pat =>
      match re_search pat goal with
      | some mt =>
        let tby := dyn.tfr_by.getD "text"
        let grp := dyn.group.getD 1
        match mt grp with
        | some v0 =>
          let v := (dyn.preVal.getD "") ++ v0 ++ (dyn.sufVal.getD "")
          if v != "" then some ⟨tby, v⟩ else none
        | none => none
      | none => none
    | _, _ => none

/-- Steps 3 and 4 of `plan_next_action`: the scroll fallback when permitted,
else a short wait. -/
def planFallback (cfg : Config) : Option Action :=
  if cfg.fallback_scroll_if_not_found.getD true then
    let scroll_args : ArgsMap :=
      [("direction", .vstr "down"), ("duration_ms", .vint 500), ("length_factor", .vrat (7/10))]
    let scroll_args := match cfg.fallback_scroll_args with
      | some m => m.foldl (fun acc kv => dictSet acc kv.1 kv.2) scroll_args
      | none => scroll_args
    _validate_action ⟨some "scroll", none, scroll_args⟩
  else
    _validate_action ⟨some "wait", none, [("duration_ms", .vint 500)]⟩

/-- The hint loop of `plan_next_action` (step 2): each `continue` of the
source recurses on the remaining hints; falling off the end reaches the
fallbacks. -/
def planHints (goal : String) (obs : Obs) (state_norm : Snapshot) (cfg : Config)
    (history : List HistEntry) (re_search : ReSearch) : List Hint → Option Action
  | [] => planFallback cfg
  | hint :: rest =>
    if (match hint.when_goal_contains_any with
        | some ws => !_goal_contains_any goal ws
        | none => false) then
      planHints goal obs state_norm cfg history re_search rest
    else if (match hint.when_goal_regex with
        | some pat => (re_search pat goal).isNone
        | none => false) then
      planHints goal obs state_norm cfg history re_search rest
    else
      let action := hint.action
      let target := hintTarget goal state_norm re_search hint
      let args := hintArgs goal re_search hint
      if action == some "open_app"
          && (pkgCandidates cfg).any (fun p => p != "" && pyContains obs.package_activity p) then
        planHints goal obs state_norm cfg history re_search rest
      else if (action == some "tap" || action == some "open_app") && target.isNone then
        planHints goal obs state_norm cfg history re_search rest
      else
        let act_obj : Action := ⟨action, target, args⟩
        if action == some "type" && typed_same_recently history args then
          planHints goal obs state_norm cfg history re_search rest
        else if action == some "tap" && _goal_contains_any goal ["search"]
            && hasSearchField state_norm obs then
          planHints goal obs state_norm cfg history re_search rest
        else
          match _validate_action act_obj with
          | some a => some a
          | none => planHints goal obs state_norm cfg history re_search rest

/-- Source `plan_next_action(goal, obs, state_norm, cfg, history)` from `planner.py`.
`none` models a raised `ValueError` (planner invalidity, a hard stop for the
loop); step 1 is the app-presence guard, which short-circuits everything
else. -/
def plan_next_action (goal : String) (obs : Obs) (state_norm : Snapshot)
    (cfg : Config) (history : List HistEntry) (re_search : ReSearch) : Option Action :=
  match _need_open_app obs cfg with
  | some act => _validate_action act
  | none => planHints goal obs state_norm cfg history re_search cfg.plan_hints

/-! ## Concrete fixtures for counterexamples and witnesses -/

/-- Build a normalizer-shaped element (center derived from bounds as in
`normalize`). -/
def fxElem (id rid txt desc cls : String) (b : List Int) (clk : Bool) : Element :=
  { element_id := id, resource_id := rid, text := txt, content_desc := desc,
    clazz := cls, bounds := b, clickable := clk, focusable := false,
    center := [((b.getD 0 0) + (b.getD 2 0)).fdiv 2, ((b.getD 1 0) + (b.getD 3 0)).fdiv 2] }

/-- Build a snapshot with its `by_id` index, as `normalize` does. -/
def fxSnap (es : List Element) : Snapshot :=
  ⟨es, es.map (fun e => (e.element_id, e))⟩

def emptySnap : Snapshot := ⟨[], []⟩

/- C2: a snapshot whose only element carries the bounds *string* as its text
but different bounds. -/
def fx2elem : Element := fxElem "e1" "" "[1,2,3,4]" "" "" [0, 0, 5, 5] false

def fx2snap : Snapshot := fxSnap [fx2elem]

/- C4 counterexample: a non-clickable resource-id match wrapped by a clickable
container. -/
def fx4inner : Element := fxElem "i" "rid1" "Label" "" "" [10, 10, 20, 20] false

def fx4outer : Element := fxElem "o" "other" "" "" "" [0, 0, 100, 100] true

def fx4snap : Snapshot := fxSnap [fx4inner, fx4outer]

/- C4 witness: text discriminant, clickable preference and wrapper cases. -/
def fx4t1 : Element := fxElem "a" "" "Go" "" "" [0, 0, 5, 5] false

def fx4t2 : Element := fxElem "b" "" "Go" "" "" [6, 6, 9, 9] true

def fx4tsnap : Snapshot := fxSnap [fx4t1, fx4t2]

def fx4lab : Element := fxElem "lab" "" "Settings" "" "" [10, 10, 20, 20] false

def fx4row : Element := fxElem "row" "" "" "" "" [0, 0, 100, 100] true

def fx4wsnap : Snapshot := fxSnap [fx4lab, fx4row]

/- C5 witness: one exact text match among distractors. -/
def fx5a : Element := fxElem "a" "" "Buy Now" "" "" [0, 0, 10, 10] true

def fx5b : Element := fxElem "b" "" "Buy Later" "" "" [0, 20, 10, 30] true

def fx5snap : Snapshot := fxSnap [fx5a, fx5b]

/- C6 witness: a non-containment candidate with similarity exactly 3/5, and a
score tie broken by snapshot order. -/
def fx6a : Element := fxElem "f" "" "abcde" "" "" [0, 0, 1, 1] false

def fx6e1 : Element := fxElem "t1" "" "go x" "" "" [0, 0, 1, 1] false

def fx6e2 : Element := fxElem "t2" "" "go x" "" "" [0, 2, 1, 3] true

def fx6score : ℚ := fuzzyScore "go" fx6e1

/- C3 witness: a config that names an app and carries a hint matching the
goal, and a foreground in a different package. -/
def fx3hint : Hint :=
  { when_goal_contains_any := some ["socks"],
    action := some "type",
    args := some [("text", PyVal.vstr "socks")] }

def fx3cfg : Config :=
  { app_component := some "com.x/.MainActivity", package := some "com.x",
    allowed_packages := [], plan_hints := [fx3hint] }

/- C7 witness fixtures. -/
def fx7hint : Hint :=
  { when_goal_contains_any := some ["search"],
    action := some "type",
    args := some [("text", PyVal.vstr "socks")] }

def fx7hintW : Hint :=
  { when_goal_contains_any := some ["search"],
    action := some "type",
    args := some [("text", PyVal.vstr "widgets")] }

def fx7hist : List HistEntry :=
  [⟨some ⟨some "type", none, [("text", PyVal.vstr "socks")]⟩⟩]

/- C8 witness: a constant stream whose snapshots never satisfy the
expectation. -/
def fx8stream : Nat → Obs × Snapshot := fun _ => (⟨""⟩, emptySnap)

def fx8exp : Expectation := { must_equal_text := some "X" }

def fx8action : Action := ⟨some "tap", none, []⟩

/- C10 witness: a device that reports success on everything (its responses are
irrelevant: the claim is that it is never consulted). -/
def fxDev : Device :=
  ⟨fun _ => (true, "ok"), (true, "ok"), fun _ => (true, "ok"),
   fun _ _ => (true, "ok"), fun _ => (true, "ok"), fun _ _ _ _ _ => (true, "ok")⟩

def fx10target : Target := ⟨"text", "nope"⟩

/-! ## Shared helper lemmas -/

/-- The first-match loop `for e in elems: if p(e): return e` returns the match
when it is unique. -/
theorem find?_eq_some_unique {α : Type} (p : α → Bool) (l : List α) (a : α)
    (hmem : a ∈ l) (hp : p a = true) (huniq : ∀ x ∈ l, p x = true → x = a) :
    l.find? p = some a := by
  induction l with
  | nil => cases hmem
  | cons b t ih =>
    by_cases hb : p b = true
    · have hba : b = a := huniq b (List.mem_cons_self b t) hb
      subst hba
      exact List.find?_cons_of_pos _ hb
    · have hba : b ≠ a := fun h => hb (h ▸ hp)
      have hmem' : a ∈ t := by
        cases hmem with
        | head => exact absurd rfl hba
        | tail _ h => exact h
      rw [List.find?_cons_of_neg _ (by simpa using hb)]
      exact ih hmem' (fun x hx hpx => huniq x (List.mem_cons_of_mem _ hx) hpx)

/-! ## C1 -/

/-- C1, counterexample: the claim asserts `ok = false` for *every* termination
evaluator on an empty spec, but `termination.evaluate_termination` applied to
the empty spec reports `ok = true` (it ANDs nothing into the initial `True`). -/
theorem c1_counterexample :
    (evaluate_termination emptySnap ⟨"com.launcher/.Home"⟩ {}).ok = true := rfl

/-- C1, amended: `run_goal.goal_satisfied` — the evaluator the run loop uses as
the source of truth — yields "not satisfied" on every empty/absent spec; but
`termination.evaluate_termination` has no emptiness guard and yields
`ok = true` on the empty spec. -/
theorem c1_theorem :
    (∀ (obs : Obs) (st : Snapshot) (conf : TermConf), conf.isEmptyDict = true →
      goal_satisfied obs st conf = false)
    ∧ ∀ (st : Snapshot) (obs : Obs), (evaluate_termination st obs {}).ok = true := by
  constructor
  · intro obs st conf h
    simp [goal_satisfied, h]
  · intro st obs
    rfl

/-- C1, witness for the amended theorem at concrete inputs. -/
theorem c1_witness :
    goal_satisfied ⟨"com.launcher/.Home"⟩ emptySnap {} = false
    ∧ (evaluate_termination emptySnap ⟨"com.launcher/.Home"⟩ {}).ok = true :=
  ⟨c1_theorem.1 _ _ _ rfl, c1_theorem.2 _ _⟩

/-! ## C2 -/

/-- C2: at the failing input, the `bounds` value `"[1,2,3,4]"` parses as a
literal rectangle, no element's bounds equal it — yet `find_by_selector`
returns an element: the trailing `resolve_selector` fallback runs its fuzzy
tier (which, contrary to its own comment "Fuzzy search if target is by
text/content-desc", runs for every discriminant) and matches the rectangle
text against the element's `text`. -/
theorem c2_theorem :
    pyParseIntList "[1,2,3,4]" = some [1, 2, 3, 4]
    ∧ fx2snap.elements.all (fun e => e.bounds != [1, 2, 3, 4]) = true
    ∧ find_by_selector fx2snap "bounds" "[1,2,3,4]" = some fx2elem := by
  refine ⟨rfl, rfl, ?_⟩
  decide

/-! ## C9 -/

/-- C9: the verifier's `must_contain_text` primitive (`fuzzy_text_present`)
matches exactly the non-editable elements (those whose class does not contain
"edittext", case-insensitively), while `goal_satisfied`'s `must_contain_text`
clause matches over all elements with no class filter. -/
theorem c9_theorem (st : Snapshot) (needle : String) (obs : Obs) :
    (fuzzy_text_present st needle = true ↔
      ∃ e ∈ st.elements, pyContains e.clazz.pyLower "edittext" = false
        ∧ pyContains e.text.pyStrip.pyLower needle.pyStrip.pyLower = true)
    ∧ (goal_satisfied obs st {must_contain_text := some needle} = true ↔
      ∃ e ∈ st.elements, pyContains e.text.pyStrip.pyLower needle.pyStrip.pyLower = true) := by
  constructor
  · simp [fuzzy_text_present, List.any_eq_true]
  · simp [goal_satisfied, TermConf.isEmptyDict, List.any_eq_true]

/-! ## C10 -/

/-- C10: a `tap` action whose target resolves to no element and whose value is
not a literal `"x,y"` coordinate pair fails with the "tap target not found"
note, issues no device call at all, and in particular never taps `(0,0)`. -/
theorem c10_theorem (dev : Device) (st : Snapshot) (t : Target) (args : ArgsMap)
    (hfind : find_by_selector st t.tby t.value = none)
    (hcoord : coordOf t.value = none) :
    exec_action dev ⟨some "tap", some t, args⟩ st =
      ({success := false, adb_cmds := [],
        note := "tap target not found: by=" ++ t.tby ++ " value=" ++ t.value,
        resolved := none}, []) := by
  have hxy : _resolve_tap_target (some t) st = (0, 0) := by
    simp [_resolve_tap_target, hfind, hcoord]
  simp [exec_action, hxy]

/-- C10, witness at a concrete unresolvable non-coordinate target. -/
theorem c10_witness :
    exec_action fxDev ⟨some "tap", some fx10target, []⟩ emptySnap =
      ({success := false, adb_cmds := [],
        note := "tap target not found: by=text value=nope",
        resolved := none}, []) := by
  have h := c10_theorem fxDev emptySnap fx10target [] (by decide) (by decide)
  simpa using h

/-! ## C8 -/

/-- When every observation fails the expectation, the verifier loop consumes
its whole budget: one re-observation per attempt, a backoff sleep between
consecutive attempts, final state from the last observation, `ok = false`. -/
theorem verifyGo_all_fail (stream : Nat → Obs × Snapshot) (ex : Expectation) (mr : Nat)
    (h : ∀ i, checkExpectation ex (stream i).1 (stream i).2 = false) :
    ∀ (r attempt : Nat) (tr : List VerStep) (last : Option (Obs × Snapshot)),
      verifyGo stream (some ex) mr r attempt tr last =
        ⟨false, attempt + r,
          (if r = 0 then last else some (stream (attempt + r - 1))),
          tr ++ failTrace mr attempt r⟩ := by
  intro r
  induction r with
  | zero => intro attempt tr last; simp [verifyGo, failTrace]
  | succ n ih =>
    intro attempt tr last
    rw [verifyGo]
    simp only [Nat.add_sub_cancel]
    have hc : ¬ (checkExpectation ex (stream attempt).1 (stream attempt).2 = true) := by
      simp [h attempt]
    rw [if_neg hc]
    rw [ih]
    have hidx : attempt + 1 + n - 1 = attempt + n := by omega
    have hidx2 : attempt + (n + 1) - 1 = attempt + n := by omega
    by_cases hn : n = 0
    · subst hn
      by_cases hlt : attempt + 1 < mr <;>
        simp [failTrace, hlt, List.append_assoc]
    · by_cases hlt : attempt + 1 < mr <;>
        · simp [failTrace, hn, hlt, hidx, hidx2, List.append_assoc, Nat.add_assoc]
          exact ⟨by omega, by congr 1; omega⟩

/-- C8: against an expectation no observation ever satisfies, with
`max_retries = 3` the verifier re-observes exactly 3 times, sleeps 0.5s then
1.0s between attempts, issues no other effect (in particular it never
re-executes the action: no `execStep` occurs), and reports `ok = false,
attempts = 3`; with a larger budget (here 5) the last backoff value 2.0s is
reused for every further attempt. -/
theorem c8_theorem (stream : Nat → Obs × Snapshot) (action : Action) (ex : Expectation)
    (h : ∀ i, checkExpectation ex (stream i).1 (stream i).2 = false) :
    verify_and_retry stream action (some ex) 3 =
      ⟨false, 3, some (stream 2),
        [.obsStep, .sleepStep (1/2), .obsStep, .sleepStep 1, .obsStep]⟩
    ∧ verify_and_retry stream action (some ex) 5 =
      ⟨false, 5, some (stream 4),
        [.obsStep, .sleepStep (1/2), .obsStep, .sleepStep 1, .obsStep, .sleepStep 2,
         .obsStep, .sleepStep 2, .obsStep]⟩ := by
  constructor
  · rw [verify_and_retry, verifyGo_all_fail stream ex 3 h 3 0 [] none]
    simp [failTrace, backoffs]
  · rw [verify_and_retry, verifyGo_all_fail stream ex 5 h 5 0 [] none]
    simp [failTrace, backoffs]

/-- C8, witness: a constant stream of empty snapshots never satisfies
`must_equal_text = "X"`. -/
theorem c8_witness :
    verify_and_retry fx8stream fx8action (some fx8exp) 3 =
      ⟨false, 3, some (fx8stream 2),
        [.obsStep, .sleepStep (1/2), .obsStep, .sleepStep 1, .obsStep]⟩
    ∧ verify_and_retry fx8stream fx8action (some fx8exp) 5 =
      ⟨false, 5, some (fx8stream 4),
        [.obsStep, .sleepStep (1/2), .obsStep, .sleepStep 1, .obsStep, .sleepStep 2,
         .obsStep, .sleepStep 2, .obsStep]⟩ :=
  c8_theorem fx8stream fx8action fx8exp (fun _ => rfl)

/-! ## C3 -/

/-- C3: when the config names a target application component and the current
observation's foreground matches none of the allowed packages (the configured
package, the `allowed_packages` entries, and the component's own package
prefix), `plan_next_action` returns `open_app` targeting that component —
whatever the goal, snapshot, hints and history are. -/
theorem c3_theorem (goal : String) (obs : Obs) (st : Snapshot) (cfg : Config)
    (history : List HistEntry) (re_search : ReSearch) (comp : String)
    (hc : cfg.app_component = some comp) (hcne : comp ≠ "")
    (hpkg : ∀ p, cfg.package = some p → pyContains obs.package_activity p = false)
    (hall : ∀ p ∈ cfg.allowed_packages, pyContains obs.package_activity p = false)
    (hcp : pyContains obs.package_activity ((comp.pySplitOn "/").headD "") = false) :
    plan_next_action goal obs st cfg history re_search = some (openAppAction comp) := by
  have hany : (pkgCandidates cfg).any
      (fun p => p != "" && pyContains obs.package_activity p) = false := by
    apply List.any_eq_false.mpr
    intro p hp
    rcases List.mem_append.mp hp with h1 | h2
    · rcases hq : cfg.package with _ | q
      · simp only [pkgCandidates, hq] at h1
        simp at h1
      · simp only [pkgCandidates, hq] at h1
        by_cases hqe : q = ""
        · simp [hqe] at h1
        · simp [hqe] at h1
          subst h1
          simp [hpkg _ hq]
    · simp [hall p h2]
  have hneed : _need_open_app obs cfg = some (openAppAction comp) := by
    have hcp' : pyContains obs.package_activity ((comp.pySplitOn "/").head?.getD "") = false := by
      rw [← List.headD_eq_head?_getD]
      exact hcp
    simp [_need_open_app, hany, hc, hcne, hcp']
  rw [plan_next_action, hneed]
  rfl

/-- C3, witness: foreground `com.y`, config targeting `com.x/.MainActivity`
with a plan hint whose goal predicate matches the goal. -/
theorem c3_witness :
    plan_next_action "search socks" ⟨"com.y/SomeActivity"⟩ emptySnap fx3cfg [] (fun _ _ => none)
      = some (openAppAction "com.x/.MainActivity") := by
  apply c3_theorem _ _ _ _ _ _ _ rfl (by decide)
  · intro p hp
    injection hp with h
    rw [← h]
    decide
  · intro p hp
    simp [fx3cfg] at hp
  · decide

/-! ## C5 -/

/-- C5: whenever exactly one element exactly matches the target's discriminant
field (in the per-discriminant sense of `resolve_selector`'s exact tiers:
normalized equality for resource-id / text / content-desc, the `by_id` index
for element_id, the Python string representation for bounds), the resolver
returns that element; the fuzzy tier is never consulted. -/
theorem c5_theorem (st : Snapshot) (t : Target) (e : Element) :
    (t.tby = "resource-id" → e ∈ st.elements → rsExactRid t.value e = true →
      (∀ x ∈ st.elements, rsExactRid t.value x = true → x = e) →
      resolve_selector st t = some e)
    ∧ (t.tby = "text" → e ∈ st.elements → rsExactText t.value e = true →
      (∀ x ∈ st.elements, rsExactText t.value x = true → x = e) →
      resolve_selector st t = some e)
    ∧ (t.tby = "content-desc" → e ∈ st.elements → rsExactDesc t.value e = true →
      (∀ x ∈ st.elements, rsExactDesc t.value x = true → x = e) →
      resolve_selector st t = some e)
    ∧ (t.tby = "bounds" → e ∈ st.elements → rsExactBounds t.value e = true →
      (∀ x ∈ st.elements, rsExactBounds t.value x = true → x = e) →
      resolve_selector st t = some e)
    ∧ (t.tby = "element_id" → st.by_id.lookup t.value = some e →
      resolve_selector st t = some e) := by
  refine ⟨?_, ?_, ?_, ?_, ?_⟩ <;> intro htby
  · intro hmem hp huniq
    have hf := find?_eq_some_unique (rsExactRid t.value) st.elements e hmem hp huniq
    rw [resolve_selector, rsExactTier, htby]
    simp [hf]
  · intro hmem hp huniq
    have hf := find?_eq_some_unique (rsExactText t.value) st.elements e hmem hp huniq
    rw [resolve_selector, rsExactTier, htby]
    simp [hf]
  · intro hmem hp huniq
    have hf := find?_eq_some_unique (rsExactDesc t.value) st.elements e hmem hp huniq
    rw [resolve_selector, rsExactTier, htby]
    simp [hf]
  · intro hmem hp huniq
    have hf := find?_eq_some_unique (rsExactBounds t.value) st.elements e hmem hp huniq
    rw [resolve_selector, rsExactTier, htby]
    simp [hf]
  · intro hlk
    rw [resolve_selector, rsExactTier, htby]
    simp [hlk]

/-- C5, witness: `"Buy Now"` matches exactly one of two elements. -/
theorem c5_witness : resolve_selector fx5snap ⟨"text", "Buy Now"⟩ = some fx5a := by
  apply (c5_theorem fx5snap ⟨"text", "Buy Now"⟩ fx5a).2.1 rfl (by decide) (by decide)
  decide

/-! ## C4 -/

/-- C4, counterexample: for a `resource-id` target whose only exact match is
non-clickable, a clickable element fully containing the match's bounds exists,
yet `find_by_selector` returns the inner non-clickable match — the
clickable-wrapper fallback is applied only in the `text` and `content-desc`
branches, not for `resource-id`. -/
theorem c4_counterexample :
    find_by_selector fx4snap "resource-id" "rid1" = some fx4inner
    ∧ fx4inner.clickable = false
    ∧ fx4outer ∈ fx4snap.elements
    ∧ fx4outer.clickable = true
    ∧ wrapPred (boundsOr fx4inner) fx4outer = true
    ∧ fx4outer ≠ fx4inner := by
  refine ⟨by decide, rfl, by decide, rfl, by decide, by decide⟩

/-- C4, amended: among exact matches, the clickable one is preferred for the
`resource-id`, `text` and `content-desc` discriminants; when the unique exact
match is non-clickable, the enclosing clickable wrapper (the first clickable
element whose bounds fully contain the match's) is returned instead of the
inner match for the `text` and `content-desc` discriminants only — `resource-id`
(and `bounds`/`element_id`) resolution returns the inner match with no wrapper
fallback, as the counterexample shows; with no wrapper present, the
non-clickable match itself is returned. -/
theorem c4_theorem (st : Snapshot) (value : String) :
    (∀ e ∈ st.elements, (fbsTextEq value.pyStrip e && e.clickable) = true →
      (∀ x ∈ st.elements, (fbsTextEq value.pyStrip x && x.clickable) = true → x = e) →
      find_by_selector st "text" value = some e)
    ∧ (∀ e w, e ∈ st.elements → fbsTextEq value.pyStrip e = true →
      (∀ x ∈ st.elements, fbsTextEq value.pyStrip x = true → x = e) →
      (∀ x ∈ st.elements, fbsTextEq value.pyStrip x = true → x.clickable = false) →
      w ∈ st.elements → wrapPred (boundsOr e) w = true →
      (∀ x ∈ st.elements, wrapPred (boundsOr e) x = true → x = w) →
      find_by_selector st "text" value = some w)
    ∧ (∀ e, e ∈ st.elements → fbsTextEq value.pyStrip e = true →
      (∀ x ∈ st.elements, fbsTextEq value.pyStrip x = true → x = e) →
      (∀ x ∈ st.elements, fbsTextEq value.pyStrip x = true → x.clickable = false) →
      (∀ x ∈ st.elements, wrapPred (boundsOr e) x = false) →
      find_by_selector st "text" value = some e)
    ∧ (∀ e ∈ st.elements, (fbsRid value e && e.clickable) = true →
      (∀ x ∈ st.elements, (fbsRid value x && x.clickable) = true → x = e) →
      find_by_selector st "resource-id" value = some e)
    ∧ (∀ e ∈ st.elements, (fbsDescEq value e && e.clickable) = true →
      (∀ x ∈ st.elements, (fbsDescEq value x && x.clickable) = true → x = e) →
      find_by_selector st "content-desc" value = some e)
    ∧ (∀ e w, e ∈ st.elements → fbsDescEq value e = true →
      (∀ x ∈ st.elements, fbsDescEq value x = true → x = e) →
      (∀ x ∈ st.elements, fbsDescEq value x = true → x.clickable = false) →
      w ∈ st.elements → wrapPred (boundsOr e) w = true →
      (∀ x ∈ st.elements, wrapPred (boundsOr e) x = true → x = w) →
      find_by_selector st "content-desc" value = some w) := by
  refine ⟨?_, ?_, ?_, ?_, ?_, ?_⟩
  · intro e hmem hp huniq
    have hf := find?_eq_some_unique _ st.elements e hmem hp huniq
    simp [find_by_selector, hf]
  · intro e w hmem hp huniq hclick hwmem hw hwuniq
    have hnc : st.elements.find? (fun x => fbsTextEq value.pyStrip x && x.clickable) = none := by
      apply List.find?_eq_none.mpr
      intro x hx
      by_cases hex : fbsTextEq value.pyStrip x = true
      · simp [hex, hclick x hx hex]
      · simp [Bool.and_eq_true, hex]
    have hf := find?_eq_some_unique _ st.elements e hmem hp huniq
    have hwf : clickable_wrapper st.elements (boundsOr e) = some w :=
      find?_eq_some_unique _ st.elements w hwmem hw hwuniq
    simp [find_by_selector, hnc, hf, hwf]
  · intro e hmem hp huniq hclick hnow
    have hnc : st.elements.find? (fun x => fbsTextEq value.pyStrip x && x.clickable) = none := by
      apply List.find?_eq_none.mpr
      intro x hx
      by_cases hex : fbsTextEq value.pyStrip x = true
      · simp [hex, hclick x hx hex]
      · simp [Bool.and_eq_true, hex]
    have hf := find?_eq_some_unique _ st.elements e hmem hp huniq
    have hwf : clickable_wrapper st.elements (boundsOr e) = none := by
      apply List.find?_eq_none.mpr
      intro x hx
      simp [hnow x hx]
    simp [find_by_selector, hnc, hf, hwf]
  · intro e hmem hp huniq
    have hf := find?_eq_some_unique _ st.elements e hmem hp huniq
    simp [find_by_selector, hf]
  · intro e hmem hp huniq
    have hf := find?_eq_some_unique _ st.elements e hmem hp huniq
    simp [find_by_selector, hf]
  · intro e w hmem hp huniq hclick hwmem hw hwuniq
    have hnc : st.elements.find? (fun x => fbsDescEq value x && x.clickable) = none := by
      apply List.find?_eq_none.mpr
      intro x hx
      by_cases hex : fbsDescEq value x = true
      · simp [hex, hclick x hx hex]
      · simp [Bool.and_eq_true, hex]
    have hf := find?_eq_some_unique _ st.elements e hmem hp huniq
    have hwf : clickable_wrapper st.elements (boundsOr e) = some w :=
      find?_eq_some_unique _ st.elements w hwmem hw hwuniq
    simp [find_by_selector, hnc, hf, hwf]

/-- C4, witness for the amended theorem: the clickable `"Go"` wins over the
non-clickable one, and the non-clickable `"Settings"` label yields its
enclosing clickable row. -/
theorem c4_witness :
    find_by_selector fx4tsnap "text" "Go" = some fx4t2
    ∧ find_by_selector fx4wsnap "text" "Settings" = some fx4row := by
  constructor
  · exact (c4_theorem fx4tsnap "Go").1 fx4t2 (by decide) (by decide) (by decide)
  · exact (c4_theorem fx4wsnap "Settings").2.1 fx4lab fx4row (by decide) (by decide)
      (by decide) (by decide) (by decide) (by decide) (by decide)

/-! ## C6 -/

/-- The stable-descending-sort-then-head composite: starting the fold at `c0`,
if `c` is the first element of `c0 :: cs` with maximal key (everything before
it strictly smaller, everything after it no larger), the fold returns `c`. -/
theorem foldl_pick_first_max :
    ∀ (cs : List (ℚ × Element)) (c0 c : ℚ × Element) (pre post : List (ℚ × Element)),
      c0 :: cs = pre ++ c :: post →
      (∀ x ∈ pre, x.1 < c.1) → (∀ x ∈ post, x.1 ≤ c.1) →
      cs.foldl (fun best x => if x.1 > best.1 then x else best) c0 = c := by
  intro cs
  induction cs with
  | nil =>
    intro c0 c pre post hdec hpre hpost
    cases pre with
    | nil =>
      simp only [List.nil_append, List.cons.injEq] at hdec
      exact hdec.1
    | cons p pre' =>
      simp only [List.cons_append, List.cons.injEq] at hdec
      exact absurd hdec.2.symm (by simp)
  | cons x cs' ih =>
    intro c0 c pre post hdec hpre hpost
    cases pre with
    | nil =>
      simp only [List.nil_append, List.cons.injEq] at hdec
      obtain ⟨h1, h2⟩ := hdec
      subst h1
      have hx : x.1 ≤ c0.1 := hpost x (by rw [← h2]; exact List.mem_cons_self _ _)
      have hnx : ¬(x.1 > c0.1) := not_lt.mpr hx
      simp only [List.foldl_cons, if_neg hnx]
      refine ih c0 c0 [] cs' rfl (by simp) ?_
      intro y hy
      exact hpost y (by rw [← h2]; exact List.mem_cons_of_mem _ hy)
    | cons p pre' =>
      simp only [List.cons_append, List.cons.injEq] at hdec
      obtain ⟨h1, h2⟩ := hdec
      subst h1
      have hc0 : c0.1 < c.1 := hpre c0 (List.mem_cons_self _ _)
      cases pre' with
      | nil =>
        simp only [List.nil_append, List.cons.injEq] at h2
        obtain ⟨hx, hcs⟩ := h2
        subst hx
        have hgt : x.1 > c0.1 := hc0
        simp only [List.foldl_cons, if_pos hgt]
        refine ih x x [] cs' rfl (by simp) ?_
        intro y hy
        exact hpost y (hcs ▸ hy)
      | cons p1 pre'' =>
        simp only [List.cons_append, List.cons.injEq] at h2
        obtain ⟨hx, hcs⟩ := h2
        subst hx
        have hxlt : x.1 < c.1 := hpre x (List.mem_cons_of_mem _ (List.mem_cons_self _ _))
        have hacclt : (if x.1 > c0.1 then x else c0).1 < c.1 := by
          by_cases hbc : x.1 > c0.1
          · rw [if_pos hbc]; exact hxlt
          · rw [if_neg hbc]; exact hc0
        simp only [List.foldl_cons]
        refine ih (if x.1 > c0.1 then x else c0) c ((if x.1 > c0.1 then x else c0) :: pre'')
          post (by rw [hcs]; rfl) ?_ hpost
        intro y hy
        cases hy with
        | head => exact hacclt
        | tail _ hy' =>
          exact hpre y (List.mem_cons_of_mem _ (List.mem_cons_of_mem _ hy'))

/-- C6: an element yields a fuzzy candidate exactly when its text+description
blob is non-empty and the target value is contained in it (case-insensitively)
or the similarity is at least 0.6; without containment the 0.6 similarity
threshold is sharp; the candidate list is in snapshot order, and resolution
picks the first candidate with maximal score `similarity + (0.1 if contained)`
— the highest score wins and score ties go to the earlier element. -/
theorem c6_theorem (elems : List Element) (val : String) :
    (∀ e, ((fuzzyScore val e, e) ∈ fuzzyCandidates elems val) ↔
      (e ∈ elems ∧ fuzzyBlob e ≠ ""
        ∧ (fuzzyHas val e = true ∨ fuzzySim val e ≥ 3/5)))
    ∧ (∀ e, fuzzyBlob e ≠ "" → fuzzyHas val e = false →
      ((fuzzyCandidate val e).isSome = true ↔ fuzzySim val e ≥ 3/5))
    ∧ (∀ (st : Snapshot) (t : Target) (c : ℚ × Element) (pre post : List (ℚ × Element)),
      st.elements = elems → t.value = val →
      rsExactTier st t.tby t.value = none →
      fuzzyCandidates elems val = pre ++ c :: post →
      (∀ x ∈ pre, x.1 < c.1) → (∀ x ∈ post, x.1 ≤ c.1) →
      resolve_selector st t = some c.2) := by
  refine ⟨?_, ?_, ?_⟩
  · intro e
    constructor
    · intro h
      obtain ⟨a, ha, heq⟩ := List.mem_filterMap.mp h
      rw [fuzzyCandidate] at heq
      by_cases hb : fuzzyBlob a == ""
      · rw [if_pos hb] at heq
        cases heq
      · rw [if_neg hb] at heq
        by_cases hq : (fuzzyHas val a || decide (fuzzySim val a ≥ 3/5)) = true
        · rw [if_pos hq] at heq
          have hae : a = e := (Prod.mk.injEq _ _ _ _ ▸ (Option.some.injEq _ _ ▸ heq)).2
          subst hae
          refine ⟨ha, by simpa using hb, ?_⟩
          rcases Bool.or_eq_true _ _ ▸ hq with h1 | h2
          · exact Or.inl h1
          · exact Or.inr (by simpa using h2)
        · rw [if_neg hq] at heq
          cases heq
    · rintro ⟨hmem, hblob, hcond⟩
      refine List.mem_filterMap.mpr ⟨e, hmem, ?_⟩
      rw [fuzzyCandidate, if_neg (by simpa using hblob), if_pos ?_]
      rcases hcond with h1 | h2
      · simp [h1]
      · simp [h2]
  · intro e hblob hhas
    rw [fuzzyCandidate, if_neg (by simpa using hblob), hhas]
    by_cases hs : fuzzySim val e ≥ 3/5
    · simp [hs]
    · simp [hs]
  · intro st t c pre post hst hval hexact hdec hpre hpost
    rw [resolve_selector, hexact]
    rw [hst, hval, hdec]
    cases pre with
    | nil =>
      simp only [List.nil_append]
      rw [bestCandidate, foldl_pick_first_max post c c [] post rfl (by simp) hpost]
    | cons c0 pre' =>
      simp only [List.cons_append]
      rw [bestCandidate, foldl_pick_first_max (pre' ++ c :: post) c0 c (c0 :: pre') post rfl
        hpre hpost]

/-- C6, witness: `"abcde"` vs `"abcxy"` has similarity exactly 3/5 and no
containment, so it qualifies; two equal-text candidates tie on score and the
earlier one wins. -/
theorem c6_witness :
    ((fuzzyScore "abcxy" fx6a, fx6a) ∈ fuzzyCandidates [fx6a] "abcxy")
    ∧ resolve_selector (fxSnap [fx6e1, fx6e2]) ⟨"text", "go"⟩ = some fx6e1 := by
  constructor
  · refine ((c6_theorem [fx6a] "abcxy").1 fx6a).mpr ⟨by decide, by decide, Or.inr ?_⟩
    have hm : totalMatched (fuzzyBlob fx6a).pyLower.data (pyNorm "abcxy").pyLower.data = 3 := by
      decide
    have hla : ((fuzzyBlob fx6a).pyLower.data).length = 5 := by decide
    have hlb : ((pyNorm "abcxy").pyLower.data).length = 5 := by decide
    simp only [fuzzySim, ratioOf, hm, hla, hlb]
    norm_num
  · have hs : fuzzyScore "go" fx6e2 = fuzzyScore "go" fx6e1 := rfl
    refine (c6_theorem [fx6e1, fx6e2] "go").2.2 _ ⟨"text", "go"⟩
      (fuzzyScore "go" fx6e1, fx6e1) [] [(fuzzyScore "go" fx6e2, fx6e2)] rfl rfl
      (by decide) ?_ (by simp) ?_
    · show fuzzyCandidates [fx6e1, fx6e2] "go"
        = [(fuzzyScore "go" fx6e1, fx6e1), (fuzzyScore "go" fx6e2, fx6e2)]
      rw [fuzzyCandidates, List.filterMap]
      rw [fuzzyCandidate, if_neg (by decide), if_pos (by decide)]
      rw [List.filterMap]
      rw [fuzzyCandidate, if_neg (by decide), if_pos (by decide)]
      rfl
    · intro x hx
      have hxe : x = (fuzzyScore "go" fx6e2, fx6e2) := by simpa using hx
      rw [hxe]
      exact le_of_eq hs

/-! ## C7 -/

/-- C7: a `type` hint carrying (non-empty) text `txt` is skipped by
`plan_next_action`'s hint loop whenever one of the last 3 history entries is a
`type` plan whose normalized text equals `txt`'s normalization (the loop
continues exactly as if the hint were absent); and the anti-repeat guard does
not fire for a hint whose (non-empty) text differs from every recent `type`
text, so e.g. `type "widgets"` is not skipped after `type "socks"`. -/
theorem c7_theorem (goal : String) (obs : Obs) (st : Snapshot) (cfg : Config)
    (history : List HistEntry) (re_search : ReSearch) (hint : Hint) (rest : List Hint)
    (txt : String)
    (ha : hint.action = some "type")
    (hg : hint.args_from_regex_group = none)
    (hargs : hint.args = some [("text", PyVal.vstr txt)]) :
    ((lastN history 3).any (fun h => histPlanAction h == some "type"
        && txt.pyStrip.pyLower == histPlanText h) = true →
      planHints goal obs st cfg history re_search (hint :: rest)
        = planHints goal obs st cfg history re_search rest)
    ∧ (txt.pyStrip.pyLower ≠ "" →
      (∀ h ∈ lastN history 3, histPlanAction h = some "type" →
        histPlanText h ≠ txt.pyStrip.pyLower) →
      typed_same_recently history [("text", PyVal.vstr txt)] = false) := by
  constructor
  · intro hrecent
    have hA : hintArgs goal re_search hint = [("text", PyVal.vstr txt)] := by
      rw [hintArgs, hg, hargs]
      rfl
    have htyped : typed_same_recently history [("text", PyVal.vstr txt)] = true := by
      rw [typed_same_recently]
      obtain ⟨h, hmem, hcond⟩ := List.any_eq_true.mp hrecent
      refine List.any_eq_true.mpr ⟨h, hmem, ?_⟩
      have h1 := (Bool.and_eq_true _ _).mp hcond
      refine (Bool.and_eq_true _ _).mpr ⟨h1.1, ?_⟩
      have heq : txt.pyStrip.pyLower = histPlanText h := by simpa using h1.2
      simp [pyStrOf, heq]
    by_cases g1 : (match hint.when_goal_contains_any with
        | some ws => !_goal_contains_any goal ws
        | none => false) = true
    · rw [planHints, if_pos g1]
    · rw [planHints, if_neg g1]
      by_cases g2 : (match hint.when_goal_regex with
          | some pat => (re_search pat goal).isNone
          | none => false) = true
      · rw [if_pos g2]
      · rw [if_neg g2]
        simp only [ha, hA, htyped]
        rfl
  · intro hne hdiff
    rw [typed_same_recently]
    apply List.any_eq_false.mpr
    intro h hmem
    by_cases hact : histPlanAction h == some "type"
    · have hact' : histPlanAction h = some "type" := by simpa using hact
      have hd := hdiff h hmem hact'
      simp only [hact, Bool.true_and]
      simp
      exact ⟨hne, fun hh => hd hh.symm⟩
    · simp [hact]

/-- C7, witness: with `type "socks"` in the last 3 history entries, a hint
typing `"socks"` again is skipped, while the guard does not fire for
`"widgets"`. -/
theorem c7_witness :
    planHints "search socks" ⟨"com.x/A"⟩ emptySnap {} fx7hist (fun _ _ => none)
        (fx7hint :: [])
      = planHints "search socks" ⟨"com.x/A"⟩ emptySnap {} fx7hist (fun _ _ => none) []
    ∧ typed_same_recently fx7hist [("text", PyVal.vstr "widgets")] = false := by
  have h1 := c7_theorem "search socks" ⟨"com.x/A"⟩ emptySnap {} fx7hist (fun _ _ => none)
    fx7hint [] "socks" rfl rfl rfl
  have h2 := c7_theorem "search socks" ⟨"com.x/A"⟩ emptySnap {} fx7hist (fun _ _ => none)
    fx7hintW [] "widgets" rfl rfl rfl
  exact ⟨h1.1 (by decide), h2.2 (by decide) (by decide)⟩

end AndroidAuto
